import Mathlib

/-!
Verification development for the sugarcane harvest-efficiency monitor
(`colheita.py`, `colheita_service.py`, `main.py`).

Numeric values are modelled as exact rationals (`ℚ`); Python's
`round(x, 2)` and the `:.2f` format are modelled as round-half-to-even at
two decimal places.  Strings are modelled as Lean `String`s with ASCII
character classes.
-/

set_option maxRecDepth 4096

/-- Round a rational to the nearest integer, ties to even
(the semantics of Python's builtin `round`). -/
def round_half_even (q : ℚ) : ℤ :=
  let f : ℤ := ⌊q⌋
  let r : ℚ := q - f
  if r < 1/2 then f
  else if 1/2 < r then f + 1
  else if f % 2 = 0 then f else f + 1

theorem round_half_even_intCast (n : ℤ) : round_half_even n = n := by
  simp [round_half_even]

/-- Python's `round(x, 2)`: round to two decimal places, ties to even. -/
def round2 (q : ℚ) : ℚ := (round_half_even (q * 100) : ℚ) / 100

/-- `Colheita._calcular_eficiencia` (src/colheita.py lines 99-115), as a pure
function of `previsto` and `colhido`: returns the `(eficiencia, perda)` pair
the constructor stores.  Guards `previsto <= 0`, clamps over-100% efficiency
to `(100, 0)`, rounds both results to 2 decimal places. -/
def calcular_eficiencia (previsto colhido : ℚ) : ℚ × ℚ :=
  if previsto ≤ 0 then (0, 0)
  else
    let e := colhido / previsto * 100
    if 100 < e then (round2 100, round2 0)
    else (round2 e, round2 (100 - e))

/-- `calcular_eficiencia` from src/main.py lines 32-49: same guard for
`previsto <= 0`, but no clamping of the over-100% case. -/
def main_calcular_eficiencia (previsto colhido : ℚ) : ℚ × ℚ :=
  if previsto ≤ 0 then (0, 0)
  else
    let e := colhido / previsto * 100
    (round2 e, round2 (100 - e))

/-- Recognized harvest types.  The `config` module exporting `TIPOS_COLHEITA`
is not among the provided sources; the two enumerants are fixed by the spec's
method enumeration and by the literal tuple `tipos_validos = ('manual',
'mecanica')` in src/main.py. -/
def TIPOS_COLHEITA : List String := ["manual", "mecanica"]

/-- Modelled from the spec: the configured valid ranges `LIMITES_TONELADAS =
(predicted_min, predicted_max, harvested_min, harvested_max)` read by the
quantity validators of `colheita.py`.  The `config` module defining the
concrete tuple is missing from the provided sources (src/config.py contains an
unrelated Oracle connection test), so the four bounds are kept abstract. -/
structure LIMITES where
  previsto_min : ℚ
  previsto_max : ℚ
  colhido_min : ℚ
  colhido_max : ℚ
deriving DecidableEq, Repr

/-- Python's `str.lower`, restricted to the ASCII fragment. -/
def lower (s : String) : String := String.mk (s.data.map Char.toLower)

/-- Python's `str.strip()`: drop leading and trailing whitespace. -/
def strip (s : String) : String :=
  String.mk (((s.data.dropWhile Char.isWhitespace).reverse.dropWhile Char.isWhitespace).reverse)

/-- `Colheita._validar_id_lote` (src/colheita.py lines 60-62): the id must be
a string that is non-empty after stripping surrounding whitespace.  The
`isinstance` check is vacuous in the typed embedding. -/
def validar_id_lote (id_lote : String) : Bool := strip id_lote != ""

/-- `Colheita._validar_tipo` (src/colheita.py lines 64-66). -/
def validar_tipo (tipo : String) : Bool := TIPOS_COLHEITA.contains (lower tipo)

/-- Numeric value of a two-digit string, as `int` parses it. -/
def char2 (a b : Char) : ℕ := 10 * (a.toNat - 48) + (b.toNat - 48)

/-- Numeric value of a four-digit string, as `int` parses it. -/
def char4 (a b c d : Char) : ℕ :=
  1000 * (a.toNat - 48) + 100 * (b.toNat - 48) + 10 * (c.toNat - 48) + (d.toNat - 48)

/-- Gregorian leap-year rule used by Python's `datetime`. -/
def bissexto (ano : ℕ) : Bool := ano % 4 == 0 && (ano % 100 != 0 || ano % 400 == 0)

/-- Number of days in a month of the (proleptic) Gregorian calendar. -/
def dias_no_mes (ano mes : ℕ) : ℕ :=
  if mes == 2 then (if bissexto ano then 29 else 28)
  else if mes == 4 || mes == 6 || mes == 9 || mes == 11 then 30
  else 31

/-- Acceptance condition of Python's `datetime(ano, mes, dia)` constructor:
`MINYEAR <= ano <= MAXYEAR`, a valid month, and a valid day of that month. -/
def datetime_valida (ano mes dia : ℕ) : Bool :=
  1 ≤ ano && ano ≤ 9999 && 1 ≤ mes && mes ≤ 12 && 1 ≤ dia && dia ≤ dias_no_mes ano mes

/-- Character-level body of `Colheita._validar_data` (src/colheita.py lines
68-81): the regex `^\d\x7b2\x7d/\d\x7b2\x7d/\d\x7b4\x7d$` followed by a
`datetime` validity check on the parsed day/month/year.  Python's `$`
(without `re.MULTILINE`) matches at the end of the string and also just
before one newline ending the string, so the regex accepts the ten-character
form and the same form followed by a single trailing `'\n'`; in the latter
case `int('YYYY\n')` still parses the year, since `int` strips surrounding
whitespace. -/
def validar_data_chars : List Char → Bool
  | [d1, d2, s1, m1, m2, s2, y1, y2, y3, y4] =>
    d1.isDigit && d2.isDigit && s1 == '/' && m1.isDigit && m2.isDigit && s2 == '/' &&
      y1.isDigit && y2.isDigit && y3.isDigit && y4.isDigit &&
      datetime_valida (char4 y1 y2 y3 y4) (char2 m1 m2) (char2 d1 d2)
  | [d1, d2, s1, m1, m2, s2, y1, y2, y3, y4, nl] =>
    d1.isDigit && d2.isDigit && s1 == '/' && m1.isDigit && m2.isDigit && s2 == '/' &&
      y1.isDigit && y2.isDigit && y3.isDigit && y4.isDigit && nl == '\n' &&
      datetime_valida (char4 y1 y2 y3 y4) (char2 m1 m2) (char2 d1 d2)
  | _ => false

/-- `Colheita._validar_data` (src/colheita.py lines 68-81). -/
def validar_data (data : String) : Bool := validar_data_chars data.data

/-- `Colheita._validar_previsto` (src/colheita.py lines 83-88): the quantity
must lie in the configured predicted range.  The `float()` parse step is a
no-op on an already-numeric input. -/
def validar_previsto (lim : LIMITES) (previsto : ℚ) : Bool :=
  decide (lim.previsto_min ≤ previsto) && decide (previsto ≤ lim.previsto_max)

/-- `Colheita._validar_colhido` (src/colheita.py lines 90-95). -/
def validar_colhido (lim : LIMITES) (colhido : ℚ) : Bool :=
  decide (lim.colhido_min ≤ colhido) && decide (colhido ≤ lim.colhido_max)

/-- One validation failure per `ValueError` raised by `Colheita.__init__`. -/
inductive ErroValidacao where
  | idLoteInvalido
  | tipoInvalido
  | dataInvalida
  | previstoInvalido
  | colhidoInvalido
deriving DecidableEq, Repr

/-- The `Colheita` entity (src/colheita.py): the fields a successfully
constructed object carries. -/
structure Colheita where
  id_lote : String
  tipo : String
  data : String
  previsto : ℚ
  colhido : ℚ
  eficiencia : ℚ
  perda : ℚ
  obs : String
deriving DecidableEq, Repr

/-- `Colheita.__init__` (src/colheita.py lines 15-58): runs the five
validators in source order, stores the id untrimmed and the type lowercased,
and either trusts the supplied `eficiencia`/`perda` pair verbatim (when both
are given) or derives it with `_calcular_eficiencia`. -/
def colheita_init (lim : LIMITES) (id_lote tipo data : String) (previsto colhido : ℚ)
    (obs : String) (eficiencia perda : Option ℚ) : Except ErroValidacao Colheita :=
  if !validar_id_lote id_lote then .error .idLoteInvalido
  else if !validar_tipo tipo then .error .tipoInvalido
  else if !validar_data data then .error .dataInvalida
  else if !validar_previsto lim previsto then .error .previstoInvalido
  else if !validar_colhido lim colhido then .error .colhidoInvalido
  else
    match eficiencia, perda with
    | some e, some p =>
      .ok { id_lote := id_lote, tipo := lower tipo, data := data, previsto := previsto,
            colhido := colhido, eficiencia := e, perda := p, obs := obs }
    | _, _ =>
      let ep := calcular_eficiencia previsto colhido
      .ok { id_lote := id_lote, tipo := lower tipo, data := data, previsto := previsto,
            colhido := colhido, eficiencia := ep.1, perda := ep.2, obs := obs }

/-- The serialized (dictionary) form of a record: the eight keys written by
`Colheita.para_dict`; `eficiencia`/`perda` are optional because `de_dict`
reads them with `.get`. -/
structure DictColheita where
  id_lote : String
  tipo : String
  data : String
  previsto : ℚ
  colhido : ℚ
  eficiencia : Option ℚ
  perda : Option ℚ
  obs : String
deriving DecidableEq, Repr

/-- `Colheita.para_dict` (src/colheita.py lines 117-128). -/
def para_dict (c : Colheita) : DictColheita :=
  { id_lote := c.id_lote, tipo := c.tipo, data := c.data, previsto := c.previsto,
    colhido := c.colhido, eficiencia := some c.eficiencia, perda := some c.perda,
    obs := c.obs }

/-- `Colheita.de_dict` (src/colheita.py lines 130-142): re-runs the
constructor on the stored fields, passing the stored efficiency and loss. -/
def de_dict (lim : LIMITES) (d : DictColheita) : Except ErroValidacao Colheita :=
  colheita_init lim d.id_lote d.tipo d.data d.previsto d.colhido d.obs d.eficiencia d.perda

/-- `ColheitaService.adicionar_colheita` (src/colheita_service.py lines
23-42): replace the first record carrying the same id in place, else append;
always returns `True`. -/
def adicionar_colheita (c : Colheita) : List Colheita → Bool × List Colheita
  | [] => (true, [c])
  | h :: t =>
    if h.id_lote = c.id_lote then (true, c :: t)
    else (true, h :: (adicionar_colheita c t).2)

/-- `ColheitaService.obter_colheita` (src/colheita_service.py lines 61-75):
first record with the given id, or `None`. -/
def obter_colheita (id_lote : String) : List Colheita → Option Colheita
  | [] => none
  | c :: t => if c.id_lote = id_lote then some c else obter_colheita id_lote t

/-- The list comprehension `[Colheita.de_dict(d) for d in dados]`: left to
right, failing at the first record that does not deserialize. -/
def de_dict_lista (lim : LIMITES) : List DictColheita → Except ErroValidacao (List Colheita)
  | [] => .ok []
  | d :: ds => do
    let c ← de_dict lim d
    let cs ← de_dict_lista lim ds
    pure (c :: cs)

/-- `ColheitaService.carregar_json` (src/colheita_service.py lines 168-188),
restricted to its deserialization core: the comprehension is evaluated in
full before being assigned to `self.colheitas`, and any exception lands in
the `except` branch which returns `False` leaving the store untouched. -/
def carregar_json (lim : LIMITES) (atual : List Colheita) (dados : List DictColheita) :
    Bool × List Colheita :=
  match de_dict_lista lim dados with
  | .ok novas => (true, novas)
  | .error _ => (false, atual)

/-- Two-digit decimal rendering used by `format2`. -/
def dois_digitos (n : ℕ) : String :=
  if n < 10 then "0" ++ toString n else toString n

/-- Python's fixed-point format `x:.2f`: round to two decimal places (ties to
even) and render with exactly two digits after the point. -/
def format2 (q : ℚ) : String :=
  let n : ℤ := round_half_even (q * 100)
  if n < 0 then "-" ++ toString ((-n).toNat / 100) ++ "." ++ dois_digitos ((-n).toNat % 100)
  else toString (n.toNat / 100) ++ "." ++ dois_digitos (n.toNat % 100)

/-- Sum of the `eficiencia` field over a record list
(`sum(c.eficiencia for c in ...)`). -/
def soma_eficiencia (l : List Colheita) : ℚ := (l.map (fun c => c.eficiencia)).sum

/-- The dictionary returned by `ColheitaService.calcular_estatisticas`
(src/colheita_service.py lines 86-144). -/
structure Estatisticas where
  total : ℕ
  manual_total : ℕ
  manual_eficiencia_media : ℚ
  mecanica_total : ℕ
  mecanica_eficiencia_media : ℚ
  diferenca : ℚ
  recomendacoes : List String
deriving DecidableEq, Repr

/-- `ColheitaService.calcular_estatisticas` (src/colheita_service.py lines
86-144): the empty-store early return, the partition of records by type, the
per-type averages (`0` for an empty group), the absolute difference, and the
recommendation strings chosen by the comparison — the difference is rendered
into the first recommendation with the `:.2f` format before rounding, while
the returned `diferenca` field is `round(..., 2)`. -/
def calcular_estatisticas (l : List Colheita) : Estatisticas :=
  if l.isEmpty then
    { total := 0, manual_total := 0, manual_eficiencia_media := 0, mecanica_total := 0,
      mecanica_eficiencia_media := 0, diferenca := 0,
      recomendacoes := ["Não há dados suficientes para análise."] }
  else
    let manuais := l.filter (fun c => c.tipo == "manual")
    let mecanicas := l.filter (fun c => c.tipo == "mecanica")
    let efic_manual : ℚ :=
      if !manuais.isEmpty then soma_eficiencia manuais / manuais.length else 0
    let efic_mecanica : ℚ :=
      if !mecanicas.isEmpty then soma_eficiencia mecanicas / mecanicas.length else 0
    let diferenca := |efic_manual - efic_mecanica|
    let recomendacoes : List String :=
      if !manuais.isEmpty && !mecanicas.isEmpty then
        if efic_mecanica < efic_manual then
          ["A colheita manual está " ++ format2 diferenca ++ "% mais eficiente que a mecânica.",
           "Verifique a calibração das máquinas colhedoras.",
           "Revise o treinamento dos operadores."]
        else if efic_manual < efic_mecanica then
          ["A colheita mecânica está " ++ format2 diferenca ++ "% mais eficiente que a manual.",
           "Analise os procedimentos da colheita manual.",
           "Considere treinar melhor a equipe de campo."]
        else
          ["Ambos os métodos de colheita apresentam eficiência similar."]
      else if !manuais.isEmpty then
        ["Existem apenas registros de colheita manual. Considere registrar colheitas mecânicas para comparação."]
      else if !mecanicas.isEmpty then
        ["Existem apenas registros de colheita mecânica. Considere registrar colheitas manuais para comparação."]
      else []
    { total := l.length,
      manual_total := manuais.length,
      manual_eficiencia_media := round2 efic_manual,
      mecanica_total := mecanicas.length,
      mecanica_eficiencia_media := round2 efic_mecanica,
      diferenca := round2 diferenca,
      recomendacoes := recomendacoes }

/-- The overall average efficiency written by `ColheitaService.gerar_relatorio`
(src/colheita_service.py line 222): `sum(c.eficiencia for c in self.colheitas)
/ len(self.colheitas) if self.colheitas else 0`. -/
def media_geral (l : List Colheita) : ℚ :=
  if !l.isEmpty then soma_eficiencia l / l.length else 0

/-! ### Arithmetic lemmas about round-half-to-even -/

theorem round_half_even_le (q : ℚ) (n : ℤ) (h : q ≤ n) : round_half_even q ≤ n := by
  have hf : ⌊q⌋ ≤ n := by
    have := Int.floor_le_floor h
    simpa using this
  have hfq := Int.floor_le q
  simp only [round_half_even]
  split_ifs with h1 h2 h3
  · exact hf
  · have hlt : (⌊q⌋ : ℚ) < n := by linarith
    have : ⌊q⌋ < n := by exact_mod_cast hlt
    omega
  · exact hf
  · have h1' : (1 : ℚ)/2 ≤ q - ⌊q⌋ := not_lt.1 h1
    have hlt : (⌊q⌋ : ℚ) < n := by linarith
    have : ⌊q⌋ < n := by exact_mod_cast hlt
    omega

theorem le_round_half_even (q : ℚ) (n : ℤ) (h : (n : ℚ) ≤ q) : n ≤ round_half_even q := by
  have hf : n ≤ ⌊q⌋ := Int.le_floor.2 h
  simp only [round_half_even]
  split_ifs <;> omega

theorem round_half_even_add_compl (n : ℤ) (q : ℚ) (hn : n % 2 = 0) :
    round_half_even q + round_half_even ((n : ℚ) - q) = n := by
  have h0 : (0 : ℚ) ≤ q - ⌊q⌋ := sub_nonneg.2 (Int.floor_le q)
  have h1 : q - ⌊q⌋ < 1 := by
    have := Int.lt_floor_add_one q
    linarith
  rcases eq_or_lt_of_le h0 with hz | hz
  · -- `q` is an integer
    have hq : q = (⌊q⌋ : ℚ) := by linarith
    have h2 : (n : ℚ) - q = ((n - ⌊q⌋ : ℤ) : ℚ) := by
      rw [hq, Int.floor_intCast]
      push_cast
      ring
    have h3 : round_half_even q = ⌊q⌋ := by
      simp only [round_half_even]
      rw [if_pos (by linarith : q - (⌊q⌋ : ℚ) < 1/2)]
    rw [h2, round_half_even_intCast, h3]
    omega
  · -- `q` has a nonzero fractional part
    have hfl : ⌊(n : ℚ) - q⌋ = n - ⌊q⌋ - 1 := by
      rw [Int.floor_eq_iff]
      constructor
      · push_cast; linarith
      · push_cast; linarith
    simp only [round_half_even, hfl]
    have hr : ((n : ℚ) - q) - ((n - ⌊q⌋ - 1 : ℤ) : ℚ) = 1 - (q - ⌊q⌋) := by
      push_cast; ring
    rw [hr]
    split_ifs <;> first | omega | linarith

theorem round2_nonneg (q : ℚ) (h : 0 ≤ q) : 0 ≤ round2 q := by
  have h1 := le_round_half_even (q * 100) 0 (by push_cast; linarith)
  have h2 : (0 : ℚ) ≤ (round_half_even (q * 100) : ℚ) := by exact_mod_cast h1
  simp only [round2]
  linarith

theorem round2_le_hundred (q : ℚ) (h : q ≤ 100) : round2 q ≤ 100 := by
  have h1 := round_half_even_le (q * 100) 10000 (by push_cast; linarith)
  have h2 : ((round_half_even (q * 100)) : ℚ) ≤ 10000 := by exact_mod_cast h1
  simp only [round2]
  linarith

theorem round2_compl (q : ℚ) : round2 q + round2 (100 - q) = 100 := by
  have h1 : ((100 : ℚ) - q) * 100 = ((10000 : ℤ) : ℚ) - q * 100 := by push_cast; ring
  have h2 := round_half_even_add_compl 10000 (q * 100) (by decide)
  have h3 : ((round_half_even (q * 100) : ℤ) : ℚ) +
      ((round_half_even (((10000 : ℤ) : ℚ) - q * 100) : ℤ) : ℚ) = ((10000 : ℤ) : ℚ) := by
    exact_mod_cast congrArg (fun z : ℤ => (z : ℚ)) h2
  simp only [round2, h1]
  push_cast at h3 ⊢
  linarith

theorem round2_zero : round2 0 = 0 := by norm_num [round2, round_half_even]

theorem round2_hundred : round2 100 = 100 := by norm_num [round2, round_half_even]

/-! ### Behaviour of the two efficiency calculators -/

theorem calcular_eficiencia_clamp (previsto colhido : ℚ) (h0 : 0 < previsto)
    (h1 : previsto < colhido) : calcular_eficiencia previsto colhido = (100, 0) := by
  have hp : ¬ previsto ≤ 0 := not_le.2 h0
  have hgt : (100 : ℚ) < colhido / previsto * 100 := by
    have : (1 : ℚ) < colhido / previsto := (one_lt_div h0).2 h1
    linarith
  simp only [calcular_eficiencia, if_neg hp, if_pos hgt, round2_hundred, round2_zero]

theorem calcular_eficiencia_bounds (previsto colhido : ℚ) (hcol : 0 ≤ colhido) :
    0 ≤ (calcular_eficiencia previsto colhido).1 ∧
    (calcular_eficiencia previsto colhido).1 ≤ 100 ∧
    0 ≤ (calcular_eficiencia previsto colhido).2 ∧
    (calcular_eficiencia previsto colhido).2 ≤ 100 ∧
    (0 < previsto →
      (calcular_eficiencia previsto colhido).1 + (calcular_eficiencia previsto colhido).2 = 100) := by
  by_cases hp : previsto ≤ 0
  · simp only [calcular_eficiencia, if_pos hp]
    refine ⟨le_refl 0, by norm_num, le_refl 0, by norm_num, fun hlt => absurd hp (not_le.2 hlt)⟩
  · push_neg at hp
    by_cases hgt : (100 : ℚ) < colhido / previsto * 100
    · simp only [calcular_eficiencia, if_neg (not_le.2 hp), if_pos hgt, round2_hundred,
        round2_zero]
      norm_num
    · push_neg at hgt
      have he0 : 0 ≤ colhido / previsto * 100 := by positivity
      simp only [calcular_eficiencia, if_neg (not_le.2 hp), if_neg (not_lt.2 hgt)]
      exact ⟨round2_nonneg _ he0, round2_le_hundred _ hgt,
        round2_nonneg _ (by linarith), round2_le_hundred _ (by linarith),
        fun _ => round2_compl _⟩

/-- C9: for every `predicted_tons <= 0` and every `harvested_tons` (negative
values included), both efficiency calculators are total and return exactly
`(0.0, 0.0)`: the division by `previsto` is guarded in `colheita.py` and in
`main.py` alike. -/
theorem eficiencia_previsto_nao_positivo (previsto colhido : ℚ) (h : previsto ≤ 0) :
    calcular_eficiencia previsto colhido = (0, 0) ∧
      main_calcular_eficiencia previsto colhido = (0, 0) := by
  constructor <;> simp [calcular_eficiencia, main_calcular_eficiencia, h]

theorem eficiencia_previsto_nao_positivo_witness :
    ((-2 : ℚ) ≤ 0 ∧ calcular_eficiencia (-2) (-10) = (0, 0) ∧
        main_calcular_eficiencia (-2) (-10) = (0, 0)) ∧
      ((0 : ℚ) ≤ 0 ∧ calcular_eficiencia 0 10 = (0, 0) ∧
        main_calcular_eficiencia 0 10 = (0, 0)) :=
  ⟨⟨by norm_num, (eficiencia_previsto_nao_positivo (-2) (-10) (by norm_num)).1,
      (eficiencia_previsto_nao_positivo (-2) (-10) (by norm_num)).2⟩,
    ⟨le_refl 0, (eficiencia_previsto_nao_positivo 0 10 (le_refl 0)).1,
      (eficiencia_previsto_nao_positivo 0 10 (le_refl 0)).2⟩⟩

/-- C1 counterexample: at `previsto = 100`, `colhido = 150` (harvested >
predicted > 0) the `main.py` calculator returns `(150, -50)`, not
`(100, 0)`: it has no clamping step. -/
theorem main_eficiencia_sem_clamp_cex :
    main_calcular_eficiencia 100 150 = (150, -50) ∧
      main_calcular_eficiencia 100 150 ≠ (100, 0) := by
  have h : main_calcular_eficiencia 100 150 = (150, -50) := by
    norm_num [main_calcular_eficiencia, round2, round_half_even]
  refine ⟨h, ?_⟩
  rw [h]
  norm_num [Prod.ext_iff]

/-- C1 (amended): for all `harvested_tons > predicted_tons > 0` the
`Colheita` constructor's calculator (`_calcular_eficiencia`) returns exactly
`(100.0, 0.0)`; `main.py`'s `calcular_eficiencia` does not clamp, so the
property holds only for the `colheita.py` calculator. -/
theorem eficiencia_clamp_100 (previsto colhido : ℚ) (h0 : 0 < previsto)
    (h1 : previsto < colhido) : calcular_eficiencia previsto colhido = (100, 0) :=
  calcular_eficiencia_clamp previsto colhido h0 h1

theorem eficiencia_clamp_100_witness :
    (0 : ℚ) < 50 ∧ (50 : ℚ) < 60 ∧ calcular_eficiencia 50 60 = (100, 0) :=
  ⟨by norm_num, by norm_num, eficiencia_clamp_100 50 60 (by norm_num) (by norm_num)⟩

/-! ### Characterization of successful construction -/

theorem colheita_init_ok (lim : LIMITES) (id_lote tipo data : String) (previsto colhido : ℚ)
    (obs : String) (eficiencia perda : Option ℚ) (c : Colheita)
    (h : colheita_init lim id_lote tipo data previsto colhido obs eficiencia perda = .ok c) :
    validar_id_lote id_lote = true ∧ validar_tipo tipo = true ∧ validar_data data = true ∧
      validar_previsto lim previsto = true ∧ validar_colhido lim colhido = true ∧
      c.id_lote = id_lote ∧ c.tipo = lower tipo ∧ c.data = data ∧ c.previsto = previsto ∧
      c.colhido = colhido ∧ c.obs = obs ∧
      ((∃ e p, eficiencia = some e ∧ perda = some p ∧ c.eficiencia = e ∧ c.perda = p) ∨
        (c.eficiencia = (calcular_eficiencia previsto colhido).1 ∧
          c.perda = (calcular_eficiencia previsto colhido).2 ∧
          (eficiencia = none ∨ perda = none))) := by
  simp only [colheita_init] at h
  split_ifs at h with h1 h2 h3 h4 h5
  rcases eficiencia with _ | e
  · rcases perda with _ | p
    · simp only [Except.ok.injEq] at h
      subst h
      simp_all
    · simp only [Except.ok.injEq] at h
      subst h
      simp_all
  · rcases perda with _ | p
    · simp only [Except.ok.injEq] at h
      subst h
      simp_all
    · simp only [Except.ok.injEq] at h
      subst h
      refine ⟨by simpa using h1, by simpa using h2, by simpa using h3, by simpa using h4,
        by simpa using h5, rfl, rfl, rfl, rfl, rfl, rfl, .inl ⟨e, p, rfl, rfl, rfl, rfl⟩⟩

/-- A permissive limit configuration used for concrete instances. -/
def lim_exemplo : LIMITES := ⟨0, 1000, 0, 1000⟩

/-- The record obtained by passing precomputed `eficiencia = 500`,
`perda = -350` to the constructor together with otherwise valid fields. -/
def colheita_precomputada : Colheita :=
  ⟨"L1", "manual", "01/01/2024", 100, 80, 500, -350, ""⟩

/-- C3 counterexample: the constructor accepts a precomputed
`eficiencia = 500`, `perda = -350` pair verbatim, so the claimed invariant
`efficiency_pct ∈ [0, 100]`, `loss_pct ∈ [0, 100]` and
`efficiency + loss = 100` fails for a successfully constructed record. -/
theorem invariante_precomputado_cex :
    colheita_init lim_exemplo "L1" "manual" "01/01/2024" 100 80 ""
        (some 500) (some (-350)) = .ok colheita_precomputada ∧
      colheita_precomputada.eficiencia = 500 ∧ colheita_precomputada.perda = -350 ∧
      ¬ (colheita_precomputada.eficiencia ≤ 100) ∧ ¬ (0 ≤ colheita_precomputada.perda) ∧
      0 < colheita_precomputada.previsto ∧
      colheita_precomputada.eficiencia + colheita_precomputada.perda ≠ 100 := by
  refine ⟨?_, rfl, rfl, ?_, ?_, ?_, ?_⟩
  · simp +decide [colheita_init, validar_id_lote, validar_tipo, validar_previsto,
      validar_colhido, lim_exemplo, lower, colheita_precomputada]
  · simp only [colheita_precomputada]
    norm_num
  · simp only [colheita_precomputada]
    norm_num
  · simp only [colheita_precomputada]
    norm_num
  · simp only [colheita_precomputada]
    norm_num

/-- C3 (amended): the invariant holds for every record whose efficiency and
loss were derived by the calculator (no precomputed pair supplied) and whose
harvested quantity is nonnegative: both percentages lie in `[0, 100]` and
they sum to exactly `100` whenever `predicted > 0`.  Records rebuilt with a
precomputed pair store that pair verbatim, with no range check. -/
theorem invariante_eficiencia_derivada (lim : LIMITES) (id_lote tipo data : String)
    (previsto colhido : ℚ) (obs : String) (c : Colheita) (hcol : 0 ≤ colhido)
    (h : colheita_init lim id_lote tipo data previsto colhido obs none none = .ok c) :
    0 ≤ c.eficiencia ∧ c.eficiencia ≤ 100 ∧ 0 ≤ c.perda ∧ c.perda ≤ 100 ∧
      (0 < c.previsto → c.eficiencia + c.perda = 100) := by
  obtain ⟨-, -, -, -, -, -, -, -, hprev, -, -, hep⟩ :=
    colheita_init_ok lim id_lote tipo data previsto colhido obs none none c h
  rcases hep with ⟨e, p, he, -⟩ | ⟨he, hp, -⟩
  · exact absurd he (by simp)
  · obtain ⟨b1, b2, b3, b4, b5⟩ := calcular_eficiencia_bounds previsto colhido hcol
    rw [he, hp, hprev]
    exact ⟨b1, b2, b3, b4, b5⟩

theorem invariante_eficiencia_derivada_witness :
    (0 : ℚ) ≤ 80 ∧
      colheita_init lim_exemplo "L2" "manual" "01/01/2024" 100 80 "" none none =
        .ok ⟨"L2", "manual", "01/01/2024", 100, 80, 80, 20, ""⟩ ∧
      (0 ≤ (80 : ℚ) ∧ (80 : ℚ) ≤ 100 ∧ 0 ≤ (20 : ℚ) ∧ (20 : ℚ) ≤ 100 ∧
        (0 < (100 : ℚ) → (80 : ℚ) + 20 = 100)) := by
  have hinit : colheita_init lim_exemplo "L2" "manual" "01/01/2024" 100 80 "" none none =
      .ok ⟨"L2", "manual", "01/01/2024", 100, 80, 80, 20, ""⟩ := by
    simp +decide only [colheita_init, validar_id_lote, validar_tipo, validar_previsto,
      validar_colhido, lim_exemplo]
    norm_num [calcular_eficiencia, round2, round_half_even]
    decide
  exact ⟨by norm_num, hinit,
    invariante_eficiencia_derivada lim_exemplo "L2" "manual" "01/01/2024" 100 80 ""
      ⟨"L2", "manual", "01/01/2024", 100, 80, 80, 20, ""⟩ (by norm_num) hinit⟩

/-! ### Serialization round-trip -/

theorem validar_tipo_cases (tipo : String) (h : validar_tipo tipo = true) :
    lower tipo = "manual" ∨ lower tipo = "mecanica" := by
  simpa [validar_tipo, TIPOS_COLHEITA] using h

/-- C2 (amended): rebuilding a record from its serialized form (with the
stored efficiency and loss passed through) reproduces the record exactly in
every field, provided the limit configuration in force at rebuild time still
admits the record's `previsto` and `colhido` — `de_dict` re-runs all five
validators, so the quantity checks are repeated against the current limits.
The stored efficiency/loss pair itself round-trips verbatim under any
limits. -/
theorem roundtrip_serializacao (lim lim' : LIMITES) (id_lote tipo data : String)
    (previsto colhido : ℚ) (obs : String) (eficiencia perda : Option ℚ) (c : Colheita)
    (h : colheita_init lim id_lote tipo data previsto colhido obs eficiencia perda = .ok c)
    (hp : validar_previsto lim' c.previsto = true)
    (hc : validar_colhido lim' c.colhido = true) :
    de_dict lim' (para_dict c) = .ok c := by
  obtain ⟨h1, h2, h3, -, -, hid, htipo, hdata, -, -, -, -⟩ :=
    colheita_init_ok lim id_lote tipo data previsto colhido obs eficiencia perda c h
  have hlt : lower c.tipo = c.tipo := by
    rcases validar_tipo_cases tipo h2 with hm | hm <;> rw [htipo, hm] <;> decide
  have htipo' : validar_tipo c.tipo = true := by
    have h2' : TIPOS_COLHEITA.contains (lower tipo) = true := by
      simpa [validar_tipo] using h2
    unfold validar_tipo
    rw [hlt, htipo]
    exact h2'
  have hid' : validar_id_lote c.id_lote = true := by rw [hid]; exact h1
  have hdata' : validar_data c.data = true := by rw [hdata]; exact h3
  simp only [de_dict, para_dict, colheita_init, hid', htipo', hdata', hp, hc,
    Bool.not_true, Bool.false_eq_true, if_false]
  rw [hlt]

/-- A narrower limit configuration: the predicted maximum has shrunk to 50. -/
def lim_estreito : LIMITES := ⟨0, 50, 0, 1000⟩

/-- A record built under `lim_exemplo` with `previsto = 100`. -/
def colheita_prevista_100 : Colheita := ⟨"L1", "manual", "01/01/2024", 100, 80, 80, 20, ""⟩

/-- C2 counterexample: a record with `previsto = 100`, well-formed under the
limits in force when it was built, fails to rebuild from its own serialized
form once the predicted-tons limit configuration has changed to `[0, 50]`:
`de_dict` raises `previstoInvalido` instead of reproducing the record, so
the round-trip does not hold regardless of the current limit
configuration. -/
theorem roundtrip_limites_cex :
    colheita_init lim_exemplo "L1" "manual" "01/01/2024" 100 80 "" none none =
      .ok colheita_prevista_100 ∧
    de_dict lim_estreito (para_dict colheita_prevista_100) =
      .error .previstoInvalido := by
  constructor
  · simp +decide only [colheita_init, validar_id_lote, validar_tipo, validar_previsto,
      validar_colhido, lim_exemplo]
    norm_num [calcular_eficiencia, round2, round_half_even, colheita_prevista_100]
    decide
  · simp +decide [de_dict, para_dict, colheita_prevista_100, colheita_init,
      validar_id_lote, validar_tipo, validar_previsto, validar_colhido, lim_estreito, lower]

theorem roundtrip_serializacao_witness :
    colheita_init lim_exemplo "L1" "manual" "01/01/2024" 100 80 "" none none =
        .ok colheita_prevista_100 ∧
      validar_previsto lim_exemplo colheita_prevista_100.previsto = true ∧
      validar_colhido lim_exemplo colheita_prevista_100.colhido = true ∧
      de_dict lim_exemplo (para_dict colheita_prevista_100) = .ok colheita_prevista_100 := by
  have hinit : colheita_init lim_exemplo "L1" "manual" "01/01/2024" 100 80 "" none none =
      .ok colheita_prevista_100 := by
    simp +decide only [colheita_init, validar_id_lote, validar_tipo, validar_previsto,
      validar_colhido, lim_exemplo]
    norm_num [calcular_eficiencia, round2, round_half_even, colheita_prevista_100]
    decide
  exact ⟨hinit, by decide, by decide,
    roundtrip_serializacao lim_exemplo lim_exemplo "L1" "manual" "01/01/2024" 100 80 ""
      none none colheita_prevista_100 hinit (by decide) (by decide)⟩

/-! ### The record store: upsert, lookup -/

/-- Number of stored records carrying a given batch id. -/
def conta_id (id_lote : String) (l : List Colheita) : ℕ :=
  (l.filter (fun c => c.id_lote == id_lote)).length

theorem adicionar_fst (r : Colheita) (l : List Colheita) : (adicionar_colheita r l).1 = true := by
  induction l with
  | nil => rfl
  | cons hd t ih =>
    by_cases hh : hd.id_lote = r.id_lote <;> simp [adicionar_colheita, hh]

theorem adicionar_append (r : Colheita) (l : List Colheita)
    (h : ∀ c ∈ l, c.id_lote ≠ r.id_lote) : (adicionar_colheita r l).2 = l ++ [r] := by
  induction l with
  | nil => rfl
  | cons hd t ih =>
    have h0 : hd.id_lote ≠ r.id_lote := h hd (List.mem_cons_self hd t)
    simp only [adicionar_colheita, if_neg h0]
    simpa using ih (fun c hc => h c (List.mem_cons_of_mem hd hc))

theorem adicionar_set (r : Colheita) (l : List Colheita) (i : ℕ) (hi : i < l.length)
    (hmatch : (l.get ⟨i, hi⟩).id_lote = r.id_lote)
    (hfirst : ∀ j (hj : j < l.length), j < i → (l.get ⟨j, hj⟩).id_lote ≠ r.id_lote) :
    (adicionar_colheita r l).2 = l.set i r := by
  induction l generalizing i with
  | nil => simp at hi
  | cons hd t ih =>
    by_cases hh : hd.id_lote = r.id_lote
    · rcases i with _ | i
      · simp [adicionar_colheita, hh]
      · exact absurd hh (hfirst 0 (by simp) (Nat.succ_pos i))
    · rcases i with _ | i
      · exact absurd (by simpa using hmatch) hh
      · simp only [adicionar_colheita, if_neg hh, List.set]
        have := ih i (by simpa using hi) (by simpa using hmatch)
          (fun j hj hji => by simpa using hfirst (j+1) (by simpa using hj) (by omega))
        simp [this]

theorem adicionar_idem (r : Colheita) (l : List Colheita) :
    adicionar_colheita r (adicionar_colheita r l).2 = adicionar_colheita r l := by
  induction l with
  | nil => simp [adicionar_colheita]
  | cons hd t ih =>
    by_cases hh : hd.id_lote = r.id_lote
    · simp [adicionar_colheita, hh]
    · simp only [adicionar_colheita, if_neg hh]
      simp only [adicionar_colheita] at ih
      simp [if_neg hh, ih]

theorem conta_id_adicionar (r : Colheita) (l : List Colheita)
    (h : conta_id r.id_lote l ≤ 1) :
    conta_id r.id_lote (adicionar_colheita r l).2 = 1 := by
  induction l with
  | nil => simp [adicionar_colheita, conta_id]
  | cons hd t ih =>
    by_cases hh : hd.id_lote = r.id_lote
    · have hcnt : conta_id r.id_lote (hd :: t) = conta_id r.id_lote t + 1 := by
        simp [conta_id, List.filter_cons, hh]
      have ht : conta_id r.id_lote t = 0 := by omega
      have hflt : (t.filter (fun c => c.id_lote == r.id_lote)).length = 0 := ht
      simp only [adicionar_colheita, if_pos hh]
      simp [conta_id, List.filter_cons, hflt]
    · have ht : conta_id r.id_lote t ≤ 1 := by
        simpa [conta_id, List.filter_cons, hh] using h
      simp only [adicionar_colheita, if_neg hh]
      simpa [conta_id, List.filter_cons, hh] using ih ht

/-- C5: upsert always succeeds (returns `True`); when a record with the same
batch id exists it is replaced at its original index (`List.set`, which
preserves both iteration order and store length), otherwise the record is
appended at the end; upsert is idempotent, so a second upsert of the same
record changes nothing, and on a store without duplicate ids upsert leaves
exactly one entry for the record's batch id. -/
theorem upsert_contrato :
    (∀ (r : Colheita) (l : List Colheita), (adicionar_colheita r l).1 = true) ∧
    (∀ (r : Colheita) (l : List Colheita) (i : ℕ) (hi : i < l.length),
      (l.get ⟨i, hi⟩).id_lote = r.id_lote →
      (∀ j (hj : j < l.length), j < i → (l.get ⟨j, hj⟩).id_lote ≠ r.id_lote) →
      (adicionar_colheita r l).2 = l.set i r) ∧
    (∀ (r : Colheita) (l : List Colheita), (∀ c ∈ l, c.id_lote ≠ r.id_lote) →
      (adicionar_colheita r l).2 = l ++ [r]) ∧
    (∀ (r : Colheita) (l : List Colheita),
      adicionar_colheita r (adicionar_colheita r l).2 = adicionar_colheita r l) ∧
    (∀ (r : Colheita) (l : List Colheita), conta_id r.id_lote l ≤ 1 →
      conta_id r.id_lote (adicionar_colheita r l).2 = 1) :=
  ⟨adicionar_fst, adicionar_set, adicionar_append, adicionar_idem, conta_id_adicionar⟩

/-- A replacement record carrying the same batch id `"L1"` as
`colheita_prevista_100` but different data. -/
def colheita_L1_nova : Colheita := ⟨"L1", "mecanica", "02/01/2024", 200, 150, 75, 25, "nova"⟩

/-- A second record with a distinct batch id. -/
def colheita_B2 : Colheita := ⟨"B2", "manual", "03/01/2024", 100, 90, 90, 10, ""⟩

theorem upsert_contrato_witness :
    (adicionar_colheita colheita_L1_nova [colheita_prevista_100, colheita_B2]).2 =
        [colheita_prevista_100, colheita_B2].set 0 colheita_L1_nova ∧
      adicionar_colheita colheita_L1_nova
          (adicionar_colheita colheita_L1_nova [colheita_prevista_100, colheita_B2]).2 =
        adicionar_colheita colheita_L1_nova [colheita_prevista_100, colheita_B2] ∧
      conta_id colheita_L1_nova.id_lote
          (adicionar_colheita colheita_L1_nova [colheita_prevista_100, colheita_B2]).2 = 1 :=
  ⟨upsert_contrato.2.1 colheita_L1_nova [colheita_prevista_100, colheita_B2] 0 (by decide)
      (by decide) (fun j hj hj0 => absurd hj0 (Nat.not_lt_zero j)),
    upsert_contrato.2.2.2.1 colheita_L1_nova [colheita_prevista_100, colheita_B2],
    upsert_contrato.2.2.2.2 colheita_L1_nova [colheita_prevista_100, colheita_B2] (by decide)⟩

/-- A record whose batch id carries surrounding whitespace. -/
def colheita_espacada : Colheita := ⟨" A1 ", "manual", "01/01/2024", 100, 80, 80, 20, ""⟩

/-- A record whose batch id is the trimmed form `"A1"`. -/
def colheita_A1 : Colheita := ⟨"A1", "manual", "01/01/2024", 100, 80, 80, 20, ""⟩

/-- C10: the batch id is validated by trimming (`" A1 "` passes because its
stripped form is non-empty) but stored untrimmed; ids differing only in
surrounding whitespace are distinct keys, so upsert of the padded id never
replaces the plain one (it appends), lookup by the trimmed form misses the
untrimmed record, and lookup by the exact untrimmed form finds it. -/
theorem id_lote_nao_aparado :
    validar_id_lote " A1 " = true ∧ validar_id_lote "A1" = true ∧
    (∀ lim tipo data previsto colhido obs eficiencia perda c,
      colheita_init lim " A1 " tipo data previsto colhido obs eficiencia perda = .ok c →
      c.id_lote = " A1 ") ∧
    (adicionar_colheita colheita_espacada [colheita_A1]).2 = [colheita_A1, colheita_espacada] ∧
    obter_colheita "A1" [colheita_espacada] = none ∧
    obter_colheita " A1 " [colheita_espacada] = some colheita_espacada := by
  refine ⟨by decide, by decide, ?_, by decide, by decide, by decide⟩
  intro lim tipo data previsto colhido obs eficiencia perda c h
  exact (colheita_init_ok lim " A1 " tipo data previsto colhido obs eficiencia perda c
    h).2.2.2.2.2.1

theorem id_lote_nao_aparado_witness :
    colheita_init lim_exemplo " A1 " "manual" "01/01/2024" 100 80 "" (some 80) (some 20) =
        .ok colheita_espacada ∧
      colheita_espacada.id_lote = " A1 " := by
  have hinit : colheita_init lim_exemplo " A1 " "manual" "01/01/2024" 100 80 ""
      (some 80) (some 20) = .ok colheita_espacada := by
    simp +decide [colheita_init, validar_id_lote, validar_tipo, validar_previsto,
      validar_colhido, lim_exemplo, lower, colheita_espacada, strip]
  exact ⟨hinit, id_lote_nao_aparado.2.2.1 lim_exemplo "manual" "01/01/2024" 100 80 ""
    (some 80) (some 20) colheita_espacada hinit⟩

/-! ### Bulk load -/

theorem de_dict_lista_error (lim : LIMITES) (dados : List DictColheita) (d : DictColheita)
    (hd : d ∈ dados) (e : ErroValidacao) (he : de_dict lim d = .error e) :
    ∃ e2, de_dict_lista lim dados = .error e2 := by
  induction dados with
  | nil => cases hd
  | cons hd2 t ih =>
    rcases List.mem_cons.1 hd with rfl | hmem
    · exact ⟨e, by simp [de_dict_lista, he, bind, Except.instMonad, Except.bind,
        Functor.map, Except.map]⟩
    · rcases hde : de_dict lim hd2 with e2 | c
      · exact ⟨e2, by simp [de_dict_lista, hde, bind, Except.instMonad, Except.bind,
          Functor.map, Except.map]⟩
      · obtain ⟨e2, h2⟩ := ih hmem
        exact ⟨e2, by simp [de_dict_lista, hde, h2, bind, Except.instMonad, Except.bind,
          Functor.map, Except.map]⟩

/-- C4: bulk load is all-or-nothing — if any record of the input collection
fails to deserialize, `carregar_json` reports failure (`False`) and the
in-memory collection is exactly what it was before the load; no partial
subset is committed. -/
theorem carga_atomica (lim : LIMITES) (atual : List Colheita) (dados : List DictColheita)
    (d : DictColheita) (hd : d ∈ dados) (e : ErroValidacao)
    (he : de_dict lim d = .error e) :
    (carregar_json lim atual dados).1 = false ∧ (carregar_json lim atual dados).2 = atual := by
  obtain ⟨e2, h2⟩ := de_dict_lista_error lim dados d hd e he
  simp [carregar_json, h2]

/-- A serialized record that deserializes successfully under `lim_exemplo`. -/
def dict_valido : DictColheita := ⟨"L1", "manual", "01/01/2024", 100, 80, some 80, some 20, ""⟩

/-- A malformed serialized record: its batch id is whitespace only. -/
def dict_invalido : DictColheita := ⟨"  ", "manual", "01/01/2024", 100, 80, some 80, some 20, ""⟩

theorem carga_atomica_witness :
    dict_invalido ∈ [dict_valido, dict_invalido] ∧
      de_dict lim_exemplo dict_invalido = .error .idLoteInvalido ∧
      (carregar_json lim_exemplo [colheita_B2] [dict_valido, dict_invalido]).1 = false ∧
      (carregar_json lim_exemplo [colheita_B2] [dict_valido, dict_invalido]).2 =
        [colheita_B2] := by
  have hmem : dict_invalido ∈ [dict_valido, dict_invalido] := by decide
  have herr : de_dict lim_exemplo dict_invalido = .error .idLoteInvalido := by
    simp +decide [de_dict, dict_invalido, colheita_init, validar_id_lote, strip]
  obtain ⟨hfst, hsnd⟩ :=
    carga_atomica lim_exemplo [colheita_B2] [dict_valido, dict_invalido] dict_invalido hmem
      .idLoteInvalido herr
  exact ⟨hmem, herr, hfst, hsnd⟩

/-! ### Statistics -/

/-- C8: the overall average efficiency computed for the report equals the
arithmetic mean of `eficiencia` across all records (stated both as the
quotient and multiplicatively), and is `0` for the empty collection. -/
theorem media_geral_correta :
    media_geral [] = 0 ∧
    ∀ l : List Colheita, l ≠ [] →
      media_geral l = soma_eficiencia l / l.length ∧
      media_geral l * l.length = soma_eficiencia l := by
  refine ⟨rfl, fun l hl => ?_⟩
  have hle : l.isEmpty = false := by simpa [List.isEmpty_iff] using hl
  have hlen : (l.length : ℚ) ≠ 0 := by
    have : l.length ≠ 0 := by simpa [List.length_eq_zero] using hl
    exact_mod_cast this
  constructor
  · simp [media_geral, hle]
  · simp [media_geral, hle]
    field_simp

theorem media_geral_correta_witness :
    ([colheita_B2] : List Colheita) ≠ [] ∧
      media_geral [colheita_B2] = soma_eficiencia [colheita_B2] / 1 ∧
      media_geral [colheita_B2] * 1 = soma_eficiencia [colheita_B2] := by
  have h := media_geral_correta.2 [colheita_B2] (by simp)
  constructor
  · simp
  · simpa using h

/-- One manual record at efficiency 90%. -/
def colheita_manual90 : Colheita := ⟨"M1", "manual", "05/01/2024", 100, 90, 90, 10, ""⟩

/-- One mechanized record at efficiency 70%. -/
def colheita_mecanica70 : Colheita := ⟨"K1", "mecanica", "06/01/2024", 100, 70, 70, 30, ""⟩

theorem recomendacoes_manual_melhor_geral (l : List Colheita)
    (hm : l.filter (fun c => c.tipo == "manual") ≠ [])
    (hk : l.filter (fun c => c.tipo == "mecanica") ≠ [])
    (em ek : ℚ)
    (hem : em = soma_eficiencia (l.filter (fun c => c.tipo == "manual")) /
      (l.filter (fun c => c.tipo == "manual")).length)
    (hek : ek = soma_eficiencia (l.filter (fun c => c.tipo == "mecanica")) /
      (l.filter (fun c => c.tipo == "mecanica")).length)
    (hlt : ek < em) :
    (calcular_estatisticas l).recomendacoes =
      ["A colheita manual está " ++ format2 (em - ek) ++ "% mais eficiente que a mecânica.",
       "Verifique a calibração das máquinas colhedoras.",
       "Revise o treinamento dos operadores."] := by
  have hl : l ≠ [] := by
    intro h
    subst h
    simp at hm
  have hle : l.isEmpty = false := by simpa [List.isEmpty_iff] using hl
  have hm' : (l.filter (fun c => c.tipo == "manual")).isEmpty = false := by
    simpa [List.isEmpty_iff] using hm
  have hk' : (l.filter (fun c => c.tipo == "mecanica")).isEmpty = false := by
    simpa [List.isEmpty_iff] using hk
  subst hem hek
  simp only [calcular_estatisticas, hle, hm', hk', Bool.not_false, Bool.and_self,
    Bool.false_eq_true, if_false, if_true]
  rw [if_pos hlt, abs_of_pos (sub_pos.2 hlt)]

theorem recomendacoes_scenario_d :
    (calcular_estatisticas [colheita_manual90, colheita_mecanica70]).recomendacoes =
      ["A colheita manual está 20.00% mais eficiente que a mecânica.",
       "Verifique a calibração das máquinas colhedoras.",
       "Revise o treinamento dos operadores."] ∧
    (calcular_estatisticas [colheita_manual90, colheita_mecanica70]).diferenca = 20 := by
  have hfm : ([colheita_manual90, colheita_mecanica70].filter (fun c => c.tipo == "manual")) =
      [colheita_manual90] := by decide
  have hfk : ([colheita_manual90, colheita_mecanica70].filter (fun c => c.tipo == "mecanica")) =
      [colheita_mecanica70] := by decide
  have hrec := recomendacoes_manual_melhor_geral [colheita_manual90, colheita_mecanica70]
    (by decide) (by decide) 90 70
    (by rw [hfm]; norm_num [soma_eficiencia, colheita_manual90])
    (by rw [hfk]; norm_num [soma_eficiencia, colheita_mecanica70])
    (by norm_num)
  have hf20 : format2 ((90 : ℚ) - 70) = "20.00" := by
    norm_num [format2, round_half_even]
    decide
  rw [hf20] at hrec
  refine ⟨hrec, ?_⟩
  simp only [calcular_estatisticas, hfm, hfk]
  norm_num [soma_eficiencia, colheita_manual90, colheita_mecanica70, round2, round_half_even]

/-- C6: whenever both methods are present and the manual group's average
efficiency strictly exceeds the mechanized group's, the statistics emit
exactly three recommendation strings in fixed order — the difference
statement favoring manual (difference formatted to two decimals), the
harvester-calibration recommendation, and the operator-training
recommendation; in particular one manual record at 90% and one mechanized at
70% yields the difference `20.00` in the first string and `diferenca = 20`
in the returned statistics. -/
theorem recomendacoes_manual_melhor :
    (∀ l : List Colheita,
      l.filter (fun c => c.tipo == "manual") ≠ [] →
      l.filter (fun c => c.tipo == "mecanica") ≠ [] →
      ∀ em ek : ℚ,
      em = soma_eficiencia (l.filter (fun c => c.tipo == "manual")) /
        (l.filter (fun c => c.tipo == "manual")).length →
      ek = soma_eficiencia (l.filter (fun c => c.tipo == "mecanica")) /
        (l.filter (fun c => c.tipo == "mecanica")).length →
      ek < em →
      (calcular_estatisticas l).recomendacoes =
        ["A colheita manual está " ++ format2 (em - ek) ++ "% mais eficiente que a mecânica.",
         "Verifique a calibração das máquinas colhedoras.",
         "Revise o treinamento dos operadores."]) ∧
    (calcular_estatisticas [colheita_manual90, colheita_mecanica70]).recomendacoes =
      ["A colheita manual está 20.00% mais eficiente que a mecânica.",
       "Verifique a calibração das máquinas colhedoras.",
       "Revise o treinamento dos operadores."] ∧
    (calcular_estatisticas [colheita_manual90, colheita_mecanica70]).diferenca = 20 :=
  ⟨recomendacoes_manual_melhor_geral, recomendacoes_scenario_d.1,
    recomendacoes_scenario_d.2⟩

theorem recomendacoes_manual_melhor_witness :
    (calcular_estatisticas [colheita_manual90, colheita_mecanica70]).recomendacoes =
      ["A colheita manual está " ++ format2 ((90 : ℚ) - 70) ++
         "% mais eficiente que a mecânica.",
       "Verifique a calibração das máquinas colhedoras.",
       "Revise o treinamento dos operadores."] := by
  have hfm : ([colheita_manual90, colheita_mecanica70].filter (fun c => c.tipo == "manual")) =
      [colheita_manual90] := by decide
  have hfk : ([colheita_manual90, colheita_mecanica70].filter (fun c => c.tipo == "mecanica")) =
      [colheita_mecanica70] := by decide
  exact recomendacoes_manual_melhor.1 [colheita_manual90, colheita_mecanica70]
    (by decide) (by decide) 90 70
    (by rw [hfm]; norm_num [soma_eficiencia, colheita_manual90])
    (by rw [hfk]; norm_num [soma_eficiencia, colheita_mecanica70])
    (by norm_num)

/-! ### Date validation -/

/-- C7 counterexample: `_validar_data` accepts the eleven-character string
`"29/02/2024\n"` — the regex anchor `$` matches before its trailing newline
and `int` strips the whitespace — yet that string does not match the claimed
literal pattern of exactly two digits, slash, two digits, slash, four
digits, so acceptance is not equivalent to matching that pattern. -/
theorem validacao_data_nova_linha_cex :
    validar_data "29/02/2024\n" = true ∧
      ¬ ∃ d1 d2 m1 m2 y1 y2 y3 y4 : Char,
        ("29/02/2024\n").data = [d1, d2, '/', m1, m2, '/', y1, y2, y3, y4] := by
  refine ⟨by decide, ?_⟩
  rintro ⟨d1, d2, m1, m2, y1, y2, y3, y4, h⟩
  have h10 : ("29/02/2024\n").data.length = 10 := by
    rw [h]
    simp
  have h11 : ("29/02/2024\n").data.length = 11 := by decide
  omega

/-- C7 (amended): `_validar_data` accepts a string iff it is exactly two
digits, a slash, two digits, a slash and four digits — or that same
ten-character form followed by one trailing newline, which Python's `$`
anchor and whitespace-tolerant `int` let through — and the denoted
day/month/year triple is a real calendar date in `datetime`'s range; in
particular `"31/02/2024"` is rejected while the leap-year date
`"29/02/2024"` is accepted. -/
theorem validacao_data_iff :
    validar_data "31/02/2024" = false ∧ validar_data "29/02/2024" = true ∧
    ∀ s : String, validar_data s = true ↔
      ∃ d1 d2 m1 m2 y1 y2 y3 y4 : Char,
        (s.data = [d1, d2, '/', m1, m2, '/', y1, y2, y3, y4] ∨
          s.data = [d1, d2, '/', m1, m2, '/', y1, y2, y3, y4, '\n']) ∧
        (d1.isDigit = true ∧ d2.isDigit = true ∧ m1.isDigit = true ∧ m2.isDigit = true ∧
          y1.isDigit = true ∧ y2.isDigit = true ∧ y3.isDigit = true ∧ y4.isDigit = true) ∧
        datetime_valida (char4 y1 y2 y3 y4) (char2 m1 m2) (char2 d1 d2) = true := by
  refine ⟨by decide, by decide, fun s => ?_⟩
  constructor
  · intro h
    unfold validar_data validar_data_chars at h
    split at h
    next d1 d2 s1 m1 m2 s2 y1 y2 y3 y4 heq =>
      simp only [Bool.and_eq_true, beq_iff_eq] at h
      obtain ⟨⟨⟨⟨⟨⟨⟨⟨⟨⟨hd1, hd2⟩, hs1⟩, hm1⟩, hm2⟩, hs2⟩, hy1⟩, hy2⟩, hy3⟩, hy4⟩, hdt⟩ := h
      subst hs1 hs2
      exact ⟨d1, d2, m1, m2, y1, y2, y3, y4, .inl heq,
        ⟨hd1, hd2, hm1, hm2, hy1, hy2, hy3, hy4⟩, hdt⟩
    next d1 d2 s1 m1 m2 s2 y1 y2 y3 y4 nl heq =>
      simp only [Bool.and_eq_true, beq_iff_eq] at h
      obtain ⟨⟨⟨⟨⟨⟨⟨⟨⟨⟨⟨hd1, hd2⟩, hs1⟩, hm1⟩, hm2⟩, hs2⟩, hy1⟩, hy2⟩, hy3⟩, hy4⟩, hnl⟩, hdt⟩ := h
      subst hs1 hs2 hnl
      exact ⟨d1, d2, m1, m2, y1, y2, y3, y4, .inr heq,
        ⟨hd1, hd2, hm1, hm2, hy1, hy2, hy3, hy4⟩, hdt⟩
    next => simp at h
  · rintro ⟨d1, d2, m1, m2, y1, y2, y3, y4, hdata | hdata,
      ⟨h1, h2, h3, h4, h5, h6, h7, h8⟩, hdt⟩
    all_goals
      unfold validar_data
      rw [hdata]
      simp [validar_data_chars, h1, h2, h3, h4, h5, h6, h7, h8, hdt]

